import Mathlib

/-!
Shallow embedding of the `ndd` crate (`src/lib.rs`): a non-deduplication
wrapper around a single-slot interior-mutable container, with view adapters
for UTF-8 text and NUL-terminated byte content.

Bytes are modelled as `Nat`; Rust `&str` as a byte list carrying a proof of
UTF-8 validity; Rust `&CStr` as a byte list (terminator included) carrying a
proof of NUL-terminated well-formedness.  Panicking `const fn`s are modelled
as `Except String` with the panic message as the error.
-/

/-- UTF-8 validity of a byte sequence, as accepted by `core::str::from_utf8`:
the standard UTF-8 table (no overlong encodings, no surrogates, maximum
code point U+10FFFF). -/
def utf8Valid : List Nat → Bool
  | [] => true
  | b :: rest =>
    if b < 0x80 then utf8Valid rest
    else if b < 0xC2 then false
    else if b ≤ 0xDF then
      match rest with
      | c1 :: rest2 => decide (0x80 ≤ c1 ∧ c1 ≤ 0xBF) && utf8Valid rest2
      | [] => false
    else if b ≤ 0xEF then
      match rest with
      | c1 :: c2 :: rest3 =>
        (if b = 0xE0 then decide (0xA0 ≤ c1 ∧ c1 ≤ 0xBF)
         else if b = 0xED then decide (0x80 ≤ c1 ∧ c1 ≤ 0x9F)
         else decide (0x80 ≤ c1 ∧ c1 ≤ 0xBF))
        && decide (0x80 ≤ c2 ∧ c2 ≤ 0xBF) && utf8Valid rest3
      | _ => false
    else if b ≤ 0xF4 then
      match rest with
      | c1 :: c2 :: c3 :: rest4 =>
        (if b = 0xF0 then decide (0x90 ≤ c1 ∧ c1 ≤ 0xBF)
         else if b = 0xF4 then decide (0x80 ≤ c1 ∧ c1 ≤ 0x8F)
         else decide (0x80 ≤ c1 ∧ c1 ≤ 0xBF))
        && decide (0x80 ≤ c2 ∧ c2 ≤ 0xBF) && decide (0x80 ≤ c3 ∧ c3 ≤ 0xBF)
        && utf8Valid rest4
      | _ => false
    else false

/-- A Rust `&str`: a byte sequence that is valid UTF-8 (type invariant of
`str`). -/
structure RustStr where
  bytes : List Nat
  valid : utf8Valid bytes = true

/-- `core::str::from_utf8`: succeeds exactly on valid UTF-8 bytes. -/
def str_from_utf8 (l : List Nat) : Option RustStr :=
  if h : utf8Valid l = true then some ⟨l, h⟩ else none

/-- Well-formedness required by `CStr::from_bytes_with_nul`: the sequence is
nonempty, its last byte is NUL and no earlier byte is NUL. -/
def nulTerminatedWellFormed : List Nat → Bool
  | [] => false
  | [b] => decide (b = 0)
  | b :: rest => decide (¬ b = 0) && nulTerminatedWellFormed rest

/-- A Rust `&CStr`: its underlying bytes including the trailing NUL
terminator, well-formed (type invariant of `CStr`). -/
structure RustCStr where
  bytesWithNul : List Nat
  valid : nulTerminatedWellFormed bytesWithNul = true

/-- `CStr::from_bytes_with_nul`: succeeds exactly on well-formed
NUL-terminated bytes. -/
def cstr_from_bytes_with_nul (l : List Nat) : Option RustCStr :=
  if h : nulTerminatedWellFormed l = true then some ⟨l, h⟩ else none

/-- `CStr::to_bytes`: the content bytes, without the trailing NUL. -/
def RustCStr.to_bytes (s : RustCStr) : List Nat :=
  s.bytesWithNul.dropLast

/-- The panic message of Rust's `unreachable!()`. -/
def unreachableMsg : String := "internal error: entered unreachable code"

/-- `NonDeDuplicatedFlexible<OWN, TO>`: a `Cell<OWN>` plus a phantom `TO`.
The `Cell` is modelled by its single slot. -/
structure NonDeDuplicatedFlexible (OWN : Type) (TO : Type) where
  cell : OWN

/-- `NonDeDuplicated::<T>::new(value)`: places the value into the cell,
nothing else (the `black_box` hint in the source is commented out). -/
def NonDeDuplicated.new {T : Type} (value : T) : NonDeDuplicatedFlexible T T :=
  ⟨value⟩

/-- `NonDeDuplicated::<T>::get(&self)`: reads the cell through its raw
pointer. -/
def NonDeDuplicated.get {T : Type} (self : NonDeDuplicatedFlexible T T) : T :=
  self.cell

/-- The `"Target length is ... too small."` messages of
`copy_bytes_to_array`, selected by `from.len() - len`. -/
def tooSmallMsg (d : Nat) : String :=
  if d = 1 then "Target length is 1 byte too small."
  else if d = 2 then "Target length is 2 bytes too small."
  else if d = 3 then "Target length is 3 bytes too small."
  else if d = 4 then "Target length is 4 bytes too small."
  else "Target length is more than 4 bytes too small."

/-- The `"Target length is ... too large."` messages of
`copy_bytes_to_array`, selected by `len - from.len()`. -/
def tooLargeMsg (d : Nat) : String :=
  if d = 1 then "Target length is 1 byte too large."
  else if d = 2 then "Target length is 2 bytes too large."
  else if d = 3 then "Target length is 3 bytes too large."
  else if d = 4 then "Target length is 4 bytes too large."
  else "Target length is more than 4 bytes too large."

/-- The byte-copy loop of `copy_bytes_to_array`: `to[i] = from[i]` for
`i < len`. -/
def copyBytesLoop : Nat → List Nat → List Nat → List Nat
  | 0, dst, _ => dst
  | _ + 1, [], _ => []
  | _ + 1, _ :: ts, [] => [] ++ ts
  | n + 1, _ :: ts, f :: fs => f :: copyBytesLoop n ts fs

/-- `copy_bytes_to_array(to, from, len)`: panics with a precise message when
`from.len()` exceeds or falls short of `len`, or when `to.len() != len`;
otherwise copies `from` into `to`. -/
def copy_bytes_to_array (dst src : List Nat) (len : Nat) :
    Except String (List Nat) :=
  if src.length > len then .error (tooSmallMsg (src.length - len))
  else if src.length < len then .error (tooLargeMsg (len - src.length))
  else if dst.length ≠ len then
    .error "Target slice length differs to the specified length."
  else .ok (copyBytesLoop len dst src)

/-- `bytes_to_array::<N>(bytes)`: a zeroed `[u8; N]` filled by
`copy_bytes_to_array`. -/
def bytes_to_array (N : Nat) (bytes : List Nat) : Except String (List Nat) :=
  copy_bytes_to_array (List.replicate N 0) bytes N

/-- `NonDeDuplicatedStr::<N>::new(s)`: stores `bytes_to_array(s.as_bytes())`. -/
def NonDeDuplicatedStr.new (N : Nat) (s : RustStr) :
    Except String (NonDeDuplicatedFlexible (List Nat) RustStr) :=
  match bytes_to_array N s.bytes with
  | .ok arr => .ok ⟨arr⟩
  | .error e => .error e

/-- `NonDeDuplicatedStr::<N>::get(&self)`: re-validates the stored bytes
with `core::str::from_utf8`; the `Err` arm is `unreachable!()`. -/
def NonDeDuplicatedStr.get (self : NonDeDuplicatedFlexible (List Nat) RustStr) :
    Except String RustStr :=
  match str_from_utf8 self.cell with
  | some s => .ok s
  | none => .error unreachableMsg

/-- `NonDeDuplicatedCStr::<N>::new(s)`: stores
`bytes_to_array(s.to_bytes())` — note `to_bytes()` drops the NUL
terminator. -/
def NonDeDuplicatedCStr.new (N : Nat) (s : RustCStr) :
    Except String (NonDeDuplicatedFlexible (List Nat) RustCStr) :=
  match bytes_to_array N s.to_bytes with
  | .ok arr => .ok ⟨arr⟩
  | .error e => .error e

/-- `NonDeDuplicatedCStr::<N>::new_from_bytes(arr)`: evaluates
`CStr::from_bytes_with_nul(&arr)` but binds the `Result` to `_`, discarding
it, then stores `arr` unconditionally. -/
def NonDeDuplicatedCStr.new_from_bytes (arr : List Nat) :
    Except String (NonDeDuplicatedFlexible (List Nat) RustCStr) :=
  let _ := cstr_from_bytes_with_nul arr
  .ok ⟨arr⟩

/-- `NonDeDuplicatedCStr::<N>::new_from_str(s)`: zeroes a `[u8; N]`, splits
off its last slot (`unreachable!()` when `N = 0`), copies `s`'s bytes into
the rest via `copy_bytes_to_array` with `len = s.len()`, then calls
`new_from_bytes`. -/
def NonDeDuplicatedCStr.new_from_str (N : Nat) (s : RustStr) :
    Except String (NonDeDuplicatedFlexible (List Nat) RustCStr) :=
  let arr := List.replicate N 0
  match arr.getLast? with
  | none => .error unreachableMsg
  | some last =>
    match copy_bytes_to_array arr.dropLast s.bytes s.bytes.length with
    | .error e => .error e
    | .ok sub => NonDeDuplicatedCStr.new_from_bytes (sub ++ [last])

/-- `NonDeDuplicatedCStr::<N>::get(&self)`: re-validates the stored bytes
with `CStr::from_bytes_with_nul`; the `Err` arm is `unreachable!()`. -/
def NonDeDuplicatedCStr.get
    (self : NonDeDuplicatedFlexible (List Nat) RustCStr) :
    Except String RustCStr :=
  match cstr_from_bytes_with_nul self.cell with
  | some s => .ok s
  | none => .error unreachableMsg

/-- The panic message of the `Drop` guard. -/
def dropGuardMsg : String :=
  "Do not use for local variables, const, or on heap. Use for static variables only."

/-- `Drop for NonDeDuplicatedFlexible`: panics under
`cfg(any(debug_assertions, miri))`, does nothing otherwise.  The build
configuration is the Boolean argument. -/
def NonDeDuplicatedFlexible.drop {OWN TO : Type} (debugOrMiri : Bool)
    (_self : NonDeDuplicatedFlexible OWN TO) : Except String Unit :=
  if debugOrMiri then .error dropGuardMsg else .ok ()

/-! ## Supporting lemmas -/

/-- Copying `src` over a destination of the same length yields `src`. -/
lemma copyBytesLoop_eq_src (n : Nat) (dst src : List Nat)
    (hd : dst.length = n) (hs : src.length = n) :
    copyBytesLoop n dst src = src := by
  induction n generalizing dst src with
  | zero =>
    cases dst with
    | nil =>
      cases src with
      | nil => rfl
      | cons f fs => simp at hs
    | cons t ts => simp at hd
  | succ n ih =>
    cases dst with
    | nil => simp at hd
    | cons t ts =>
      cases src with
      | nil => simp at hs
      | cons f fs =>
        simp only [copyBytesLoop]
        simp only [List.length_cons] at hd hs
        rw [ih ts fs (by omega) (by omega)]

/-- `copy_bytes_to_array` succeeds and returns `src` when both lengths equal
`len`. -/
lemma copy_bytes_to_array_ok (dst src : List Nat) (len : Nat)
    (hd : dst.length = len) (hs : src.length = len) :
    copy_bytes_to_array dst src len = .ok src := by
  unfold copy_bytes_to_array
  rw [hs, hd]
  simp [copyBytesLoop_eq_src len dst src hd hs]

/-- `bytes_to_array` succeeds and returns `bytes` when the length matches. -/
lemma bytes_to_array_ok (N : Nat) (bytes : List Nat)
    (h : bytes.length = N) : bytes_to_array N bytes = .ok bytes :=
  copy_bytes_to_array_ok _ _ _ (List.length_replicate N 0) h

/-- Appending a NUL terminator to NUL-free content is well-formed. -/
lemma nulTerminatedWellFormed_concat (l : List Nat)
    (hz : ∀ b ∈ l, b ≠ 0) :
    nulTerminatedWellFormed (l ++ [0]) = true := by
  induction l with
  | nil => rfl
  | cons a l ih =>
    cases l with
    | nil =>
      have ha : a ≠ 0 := hz a (by simp)
      simp [nulTerminatedWellFormed, ha]
    | cons c cs =>
      have ha : a ≠ 0 := hz a (by simp)
      have : nulTerminatedWellFormed ((c :: cs) ++ [0]) = true :=
        ih (fun b hb => hz b (List.mem_cons_of_mem a hb))
      simp only [List.cons_append] at this ⊢
      simp [nulTerminatedWellFormed, ha, this]

/-- Evaluation of `new_from_str` at positive capacity `n + 1`. -/
lemma new_from_str_succ (n : Nat) (s : RustStr) :
    NonDeDuplicatedCStr.new_from_str (n + 1) s =
      if s.bytes.length = n then .ok ⟨s.bytes ++ [0]⟩
      else .error "Target slice length differs to the specified length." := by
  simp only [NonDeDuplicatedCStr.new_from_str]
  rw [List.replicate_succ']
  rw [List.getLast?_concat, List.dropLast_concat]
  by_cases h : s.bytes.length = n
  · rw [copy_bytes_to_array_ok _ _ _ (by simp [h]) rfl]
    simp [h, NonDeDuplicatedCStr.new_from_bytes]
  · unfold copy_bytes_to_array
    simp only [lt_irrefl, if_false, List.length_replicate]
    simp [h, Ne.symm h]

/-! ## Concrete values used by witnesses and counterexamples -/

/-- The two-byte ASCII string `"Hi"`. -/
def strHi : RustStr := ⟨[72, 105], by decide⟩

/-- The six-byte ASCII string `"AAAAAA"`. -/
def strSixA : RustStr := ⟨List.replicate 6 65, by decide⟩

/-- The seven-byte ASCII string `"AAAAAAA"`. -/
def strSevenA : RustStr := ⟨List.replicate 7 65, by decide⟩

/-- The C string `c"A"`: content byte `65` plus the NUL terminator. -/
def cstrA : RustCStr := ⟨[65, 0], by decide⟩

/-! ## Claim theorems -/

/-- Claim C2 (code bug): the re-validation error branch inside `get` is
claimed unreachable for every adapter-constructed wrapper, but
`NonDeDuplicatedCStr::new` stores `s.to_bytes()` — the content bytes
without the NUL terminator — so for `N = 1` and the C string `c"A"`
construction succeeds with stored bytes `[65]`, and `get` then fails
re-validation and reaches its `unreachable!()` fault. -/
theorem cstr_new_then_get_hits_unreachable :
    NonDeDuplicatedCStr.new 1 cstrA = .ok ⟨[65]⟩ ∧
    NonDeDuplicatedCStr.get ⟨[65]⟩ = .error unreachableMsg :=
  ⟨rfl, rfl⟩

/-- Claim C3 (code bug): `new_from_bytes` is claimed to fail at construction
on any array that is not well-formed NUL-terminated content, but the code
binds the result of `CStr::from_bytes_with_nul` to `_`, discarding it, so
construction succeeds even on the malformed array `[65, 66]` (final byte not
NUL) — and `get` on the resulting wrapper then faults. -/
theorem new_from_bytes_accepts_malformed :
    nulTerminatedWellFormed [65, 66] = false ∧
    NonDeDuplicatedCStr.new_from_bytes [65, 66] = .ok ⟨[65, 66]⟩ ∧
    NonDeDuplicatedCStr.get ⟨[65, 66]⟩ = .error unreachableMsg :=
  ⟨rfl, rfl, rfl⟩

/-- Claim C4 (confirmed): for every string `s` whose byte length is exactly
`N`, `NonDeDuplicatedStr::<N>::new(s)` succeeds and `get` on the resulting
wrapper returns a string view whose content equals `s` byte-for-byte. -/
theorem str_new_then_get_roundtrip (N : Nat) (s : RustStr)
    (h : s.bytes.length = N) :
    ∃ w, NonDeDuplicatedStr.new N s = .ok w ∧
      ∃ t, NonDeDuplicatedStr.get w = .ok t ∧ t.bytes = s.bytes := by
  refine ⟨⟨s.bytes⟩, ?_, ⟨s.bytes, s.valid⟩, ?_, rfl⟩
  · unfold NonDeDuplicatedStr.new
    rw [bytes_to_array_ok N s.bytes h]
  · unfold NonDeDuplicatedStr.get str_from_utf8
    simp [s.valid]

/-- Witness for C4 at `N = 2`, `s = "Hi"`. -/
theorem str_new_then_get_roundtrip_witness :
    ∃ w, NonDeDuplicatedStr.new 2 strHi = .ok w ∧
      ∃ t, NonDeDuplicatedStr.get w = .ok t ∧ t.bytes = strHi.bytes :=
  str_new_then_get_roundtrip 2 strHi rfl

/-- Claim C5 (confirmed): for every NUL-free string `s` of byte length
`N - 1` (with `N ≥ 1`), `NonDeDuplicatedCStr::<N>::new_from_str(s)` succeeds
and `get` on the resulting wrapper returns a view whose bytes are `s`
followed by exactly one terminating NUL byte. -/
theorem new_from_str_then_get_roundtrip (N : Nat) (s : RustStr)
    (h1 : 1 ≤ N) (hN : s.bytes.length = N - 1)
    (hz : ∀ b ∈ s.bytes, b ≠ 0) :
    ∃ w, NonDeDuplicatedCStr.new_from_str N s = .ok w ∧
      ∃ t, NonDeDuplicatedCStr.get w = .ok t ∧
        t.bytesWithNul = s.bytes ++ [0] := by
  obtain ⟨n, rfl⟩ : ∃ n, N = n + 1 := ⟨N - 1, by omega⟩
  have hn : s.bytes.length = n := by omega
  have hwf : nulTerminatedWellFormed (s.bytes ++ [0]) = true :=
    nulTerminatedWellFormed_concat s.bytes hz
  refine ⟨⟨s.bytes ++ [0]⟩, ?_, ⟨s.bytes ++ [0], hwf⟩, ?_, rfl⟩
  · rw [new_from_str_succ, if_pos hn]
  · unfold NonDeDuplicatedCStr.get cstr_from_bytes_with_nul
    simp [hwf]

/-- Witness for C5 at `N = 3`, `s = "Hi"`. -/
theorem new_from_str_then_get_roundtrip_witness :
    ∃ w, NonDeDuplicatedCStr.new_from_str 3 strHi = .ok w ∧
      ∃ t, NonDeDuplicatedCStr.get w = .ok t ∧
        t.bytesWithNul = strHi.bytes ++ [0] :=
  new_from_str_then_get_roundtrip 3 strHi (by decide) rfl (by decide)

/-- Claim C6 (confirmed): for every well-formed NUL-terminated byte array
(no interior NUL, NUL exactly at the final position), `new_from_bytes`
succeeds and `get` on the resulting wrapper returns a view whose bytes are
identical to the array. -/
theorem new_from_bytes_then_get_roundtrip (arr : List Nat)
    (hlast : arr.getLast? = some 0)
    (hz : ∀ b ∈ arr.dropLast, b ≠ 0) :
    NonDeDuplicatedCStr.new_from_bytes arr = .ok ⟨arr⟩ ∧
      ∃ t, NonDeDuplicatedCStr.get ⟨arr⟩ = .ok t ∧
        t.bytesWithNul = arr := by
  rcases List.eq_nil_or_concat arr with rfl | ⟨L, b, rfl⟩
  · simp at hlast
  · simp only [List.concat_eq_append] at hlast hz ⊢
    rw [List.getLast?_concat] at hlast
    obtain rfl : b = 0 := Option.some.inj hlast
    rw [List.dropLast_concat] at hz
    have hwf : nulTerminatedWellFormed (L ++ [0]) = true :=
      nulTerminatedWellFormed_concat L hz
    refine ⟨rfl, ⟨L ++ [0], hwf⟩, ?_, rfl⟩
    unfold NonDeDuplicatedCStr.get cstr_from_bytes_with_nul
    simp [hwf]

/-- Witness for C6 at `arr = [72, 105, 0]`. -/
theorem new_from_bytes_then_get_roundtrip_witness :
    NonDeDuplicatedCStr.new_from_bytes [72, 105, 0] = .ok ⟨[72, 105, 0]⟩ ∧
      ∃ t, NonDeDuplicatedCStr.get ⟨[72, 105, 0]⟩ = .ok t ∧
        t.bytesWithNul = [72, 105, 0] :=
  new_from_bytes_then_get_roundtrip [72, 105, 0] rfl (by decide)

/-- Claim C7 counterexample: the "too short" error message does not describe
the exact byte-count mismatch once the mismatch exceeds 4 — a 6-byte string
and a 7-byte string against capacity 1 (mismatches 5 and 6) produce the very
same error message. -/
theorem str_new_mismatch_message_collision :
    strSixA.bytes.length - 1 = 5 ∧ strSevenA.bytes.length - 1 = 6 ∧
    NonDeDuplicatedStr.new 1 strSixA =
      .error "Target length is more than 4 bytes too small." ∧
    NonDeDuplicatedStr.new 1 strSevenA =
      .error "Target length is more than 4 bytes too small." :=
  ⟨rfl, rfl, rfl, rfl⟩

/-- Claim C7 (amended): `new(s)` fails whenever `s`'s byte length differs
from `N`; the "too short" and "too long" cases produce distinct errors, and
the error states the exact byte-count mismatch when the mismatch is at most
4 (larger mismatches are all reported as "more than 4 bytes"). -/
theorem str_new_rejects_length_mismatch (N : Nat) (s : RustStr)
    (h : s.bytes.length ≠ N) :
    NonDeDuplicatedStr.new N s = .error
      (if s.bytes.length > N then tooSmallMsg (s.bytes.length - N)
       else tooLargeMsg (N - s.bytes.length)) ∧
    (∀ d e, tooSmallMsg d ≠ tooLargeMsg e) ∧
    (∀ d e, 1 ≤ d → d ≤ 4 → 1 ≤ e → e ≤ 4 →
      tooSmallMsg d = tooSmallMsg e → d = e) ∧
    (∀ d e, 1 ≤ d → d ≤ 4 → 1 ≤ e → e ≤ 4 →
      tooLargeMsg d = tooLargeMsg e → d = e) := by
  refine ⟨?_, ?_, ?_, ?_⟩
  · unfold NonDeDuplicatedStr.new bytes_to_array copy_bytes_to_array
    by_cases hgt : s.bytes.length > N
    · simp [hgt]
    · have hlt : s.bytes.length < N := by omega
      simp [hgt, hlt]
  · intro d e
    unfold tooSmallMsg tooLargeMsg
    repeat' split
    all_goals decide
  · intro d e h1 h2 h3 h4
    interval_cases d <;> interval_cases e <;> decide
  · intro d e h1 h2 h3 h4
    interval_cases d <;> interval_cases e <;> decide

/-- Witness for C7 at `N = 3`, `s = "Hi"` (one byte short is impossible
here: two bytes against capacity three). -/
theorem str_new_rejects_length_mismatch_witness :
    NonDeDuplicatedStr.new 3 strHi = .error
      (if strHi.bytes.length > 3 then tooSmallMsg (strHi.bytes.length - 3)
       else tooLargeMsg (3 - strHi.bytes.length)) :=
  (str_new_rejects_length_mismatch 3 strHi (by decide)).1

/-- Claim C8 (confirmed): for every wrapper instance, running the `Drop`
guard under the debug/miri configuration raises the fatal diagnostic, and
under the release configuration raises no fault at all. -/
theorem drop_guard_asymmetry {OWN TO : Type}
    (w : NonDeDuplicatedFlexible OWN TO) :
    NonDeDuplicatedFlexible.drop true w = .error dropGuardMsg ∧
    NonDeDuplicatedFlexible.drop false w = .ok () :=
  ⟨rfl, rfl⟩

/-- Claim C9 (confirmed): `NonDeDuplicated::<T>::new(v)` stores exactly `v`
in the cell, and `get` on the resulting wrapper returns `v`. -/
theorem ndd_new_get_preserves_value {T : Type} (v : T) :
    (NonDeDuplicated.new v).cell = v ∧
    NonDeDuplicated.get (NonDeDuplicated.new v) = v :=
  ⟨rfl, rfl⟩

/-- Claim C10 (confirmed): `NonDeDuplicatedCStr::<N>::new_from_str(s)`
completes exactly when `N ≥ 1` and `s`'s byte length equals `N - 1`; in
particular it panics for every input when `N = 0`. -/
theorem new_from_str_completes_iff (N : Nat) (s : RustStr) :
    (∃ w, NonDeDuplicatedCStr.new_from_str N s = .ok w) ↔
      (1 ≤ N ∧ s.bytes.length = N - 1) := by
  cases N with
  | zero => simp [NonDeDuplicatedCStr.new_from_str]
  | succ n =>
    rw [new_from_str_succ]
    by_cases h : s.bytes.length = n
    · simp [h]
    · simp only [if_neg h]
      constructor
      · rintro ⟨w, hw⟩
        exact absurd hw (by simp)
      · rintro ⟨_, h2⟩
        exact absurd (by omega : s.bytes.length = n) h
